import Mathlib

set_option maxRecDepth 10000

/-!
Verification of the PCA9685 PWM/servo driver (`src/src/interfaces/servo.cpp`)
against its natural-language specification.

The driver is shallowly embedded: each method of `Adafruit_PWMServoDriver`
becomes a Lean function.  Byte registers are `Nat` values reduced `% 256`,
16-bit quantities are `Nat` values reduced `% 65536` where the C++ types
force it, and the C++ `float`/`double` arithmetic of the prescale and
microsecond computations is modelled over `ℚ` (exact arithmetic with the
same operation structure as the source).  Register traffic is modelled as a
trace of `BusOp` events carrying the file descriptor, so that fail-fast and
frame properties can be stated.
-/

namespace Servo

/-- Modelled from the spec: the header `servo.hpp` (register map and bit
constants, spec §6) is not under `src/`; these are the PCA9685 register
addresses it defines.  MODE1 is register 0, MODE2 register 1, the first
channel block starts at 6, the prescale register is 0xFE. -/
def PCA9685_MODE1 : ℕ := 0x00

/-- Modelled from the spec: MODE2 register address (spec §6). -/
def PCA9685_MODE2 : ℕ := 0x01

/-- Modelled from the spec: base address of channel 0's four-byte block
(`LED0_ON_L`, spec §6). -/
def PCA9685_LED0_ON_L : ℕ := 0x06

/-- Modelled from the spec: prescale register address (spec §6). -/
def PCA9685_PRESCALE : ℕ := 0xFE

/-- Modelled from the spec: RESTART bit of MODE1 (spec §6), bit 7. -/
def MODE1_RESTART : ℕ := 0x80

/-- Modelled from the spec: EXTCLK bit of MODE1 (spec §6), bit 6. -/
def MODE1_EXTCLK : ℕ := 0x40

/-- Modelled from the spec: AUTO-INCREMENT bit of MODE1 (spec §6), bit 5. -/
def MODE1_AI : ℕ := 0x20

/-- Modelled from the spec: SLEEP bit of MODE1 (spec §6), bit 4. -/
def MODE1_SLEEP : ℕ := 0x10

/-- Modelled from the spec: OUTDRV bit of MODE2 (spec §6), bit 2. -/
def MODE2_OUTDRV : ℕ := 0x04

/-- Modelled from the spec: datasheet lower bound of the prescale register
(spec §3/§6: valid range `[PRESCALE_MIN, PRESCALE_MAX]`). -/
def PCA9685_PRESCALE_MIN : ℕ := 3

/-- Modelled from the spec: datasheet upper bound of the prescale register. -/
def PCA9685_PRESCALE_MAX : ℕ := 255

/-- Modelled from the spec: nominal internal oscillator rate, 25 MHz. -/
def FREQUENCY_OSCILLATOR : ℕ := 25000000

/-- One bus transaction issued through the wiringPi transport; the event
records the file descriptor it was issued on, so that behaviour on an
invalid handle is observable. -/
inductive BusOp where
  | readReg  (fd : ℤ) (addr : ℕ) : BusOp
  | writeReg (fd : ℤ) (addr : ℕ) (val : ℕ) : BusOp
deriving DecidableEq, Repr

/-- `write8`: unconditionally issues a register write on the stored
descriptor (servo.cpp:316-318); the address and data are bytes. -/
def write8 (fd : ℤ) (addr d : ℕ) : List BusOp :=
  [BusOp.writeReg fd (addr % 256) (d % 256)]

/-- `read8`: unconditionally issues a register read on the stored
descriptor (servo.cpp:312-314). -/
def read8 (fd : ℤ) (addr : ℕ) : List BusOp :=
  [BusOp.readReg fd (addr % 256)]

/-- The value a `read8` returns: the chip's register contents, one byte.
`regs` is the chip-resident register file. -/
def regVal (regs : ℕ → ℕ) (addr : ℕ) : ℕ :=
  regs (addr % 256) % 256

/-- The `(on, off)` argument pair `setPin` forwards to `setPWM`
(servo.cpp:223-247): the value is first clamped to 4095, then the
invert/edge-case table is applied. -/
def setPinPair (val : ℕ) (invert : Bool) : ℕ × ℕ :=
  let v := min val 4095
  if invert then
    if v = 0 then (4096, 0)
    else if v = 4095 then (0, 4096)
    else (0, 4095 - v)
  else
    if v = 4095 then (4096, 0)
    else if v = 0 then (0, 4096)
    else (0, v)

/-- `setPWM` (servo.cpp:197-211): writes the four channel bytes, on-low,
on-high, off-low, off-high, at base `LED0_ON_L + 4*num` (`uint8_t`
arithmetic, hence `% 256`). -/
def setPWM (fd : ℤ) (num tOn tOff : ℕ) : List BusOp :=
  let base := (PCA9685_LED0_ON_L + 4 * num) % 256
  write8 fd base (tOn % 65536 % 256) ++
  write8 fd (base + 1) (tOn % 65536 / 256) ++
  write8 fd (base + 2) (tOff % 65536 % 256) ++
  write8 fd (base + 3) (tOff % 65536 / 256)

/-- `setPin` (servo.cpp:223-247): clamps and dispatches to `setPWM`. -/
def setPin (fd : ℤ) (num val : ℕ) (invert : Bool) : List BusOp :=
  setPWM fd num (setPinPair val invert).1 (setPinPair val invert).2

end Servo

namespace Servo

/-- The prescale computation of `setPWMFreq` (servo.cpp:104-119), its
float/double arithmetic modelled exactly over `ℚ`: clamp the frequency to
`[1, 3500]` (two sequential tests, as in the source), form
`osc / (freq * 4096) + 0.5 - 1`, clamp that into
`[PCA9685_PRESCALE_MIN, PCA9685_PRESCALE_MAX]` (again two sequential
tests), and truncate to an integer (the `(uint8_t)` cast; the clamped value
is nonnegative, so truncation is the floor). -/
def computePrescale (osc : ℕ) (freq : ℚ) : ℕ :=
  let f : ℚ := if freq < 1 then 1 else if freq > 3500 then 3500 else freq
  let p : ℚ := ((osc : ℚ) / (f * 4096) + 1 / 2) - 1
  let q : ℚ :=
    if p < (PCA9685_PRESCALE_MIN : ℚ) then (PCA9685_PRESCALE_MIN : ℚ)
    else if p > (PCA9685_PRESCALE_MAX : ℚ) then (PCA9685_PRESCALE_MAX : ℚ)
    else p
  (⌊q⌋).toNat

/-- Writes contained in a trace, in order, as (address, value) pairs. -/
def writesOf (t : List BusOp) : List (ℕ × ℕ) :=
  t.filterMap fun op => match op with
    | .writeReg _ a v => some (a, v)
    | .readReg _ _ => none

/-- `reset` (servo.cpp:50-53): write the RESTART bit to MODE1. -/
def resetTrace (fd : ℤ) : List BusOp :=
  write8 fd PCA9685_MODE1 MODE1_RESTART

/-- `readPrescale` (servo.cpp:170-172): the chip's prescale register. -/
def readPrescale (regs : ℕ → ℕ) : ℕ :=
  regVal regs PCA9685_PRESCALE

/-- The sleep-mode value `setPWMFreq` and `setExtClk` derive from the
captured MODE1 value (servo.cpp:81, 126): restart cleared, sleep set.
`&&& (255 ^^^ MODE1_RESTART)` is the byte-level `& ~MODE1_RESTART`. -/
def sleepMode (oldmode : ℕ) : ℕ :=
  (oldmode &&& (255 ^^^ MODE1_RESTART)) ||| MODE1_SLEEP

/-- The final mode value `setExtClk` writes (servo.cpp:92): the previously
computed sleep+extclk value with SLEEP cleared and RESTART, AI set. -/
def extClkFinalMode (oldmode : ℕ) : ℕ :=
  ((sleepMode oldmode ||| MODE1_EXTCLK) &&& (255 ^^^ MODE1_SLEEP))
    ||| MODE1_RESTART ||| MODE1_AI

/-- `setExtClk` (servo.cpp:79-98): one MODE1 read, sleep write (restart
cleared), sleep+extclk write, prescale write, final wake write, and the
debug read-back; every mode value is derived from the single initial read,
never re-read from hardware. -/
def setExtClk (fd : ℤ) (regs : ℕ → ℕ) (prescale : ℕ) : List BusOp :=
  let oldmode := regVal regs PCA9685_MODE1
  read8 fd PCA9685_MODE1 ++
  write8 fd PCA9685_MODE1 (sleepMode oldmode) ++
  write8 fd PCA9685_MODE1 (sleepMode oldmode ||| MODE1_EXTCLK) ++
  write8 fd PCA9685_PRESCALE prescale ++
  write8 fd PCA9685_MODE1 (extClkFinalMode oldmode) ++
  read8 fd PCA9685_MODE1

/-- `setPWMFreq` (servo.cpp:104-138): one MODE1 read capturing the old mode
before sleeping, sleep write, prescale write, restore of the captured old
mode, restart+AI write, and the debug read-back. -/
def setPWMFreq (fd : ℤ) (regs : ℕ → ℕ) (osc : ℕ) (freq : ℚ) : List BusOp :=
  let oldmode := regVal regs PCA9685_MODE1
  read8 fd PCA9685_MODE1 ++
  write8 fd PCA9685_MODE1 (sleepMode oldmode) ++
  write8 fd PCA9685_PRESCALE (computePrescale osc freq) ++
  write8 fd PCA9685_MODE1 oldmode ++
  write8 fd PCA9685_MODE1 (oldmode ||| MODE1_RESTART ||| MODE1_AI) ++
  read8 fd PCA9685_MODE1

/-- `getPWM` (servo.cpp:179-189): assembles the channel's two little-endian
16-bit values from the four channel registers and returns a single
wraparound-normalized duty value (the C++ return type is `uint16_t`; the
intermediate `int` arithmetic of `4096 + off - on` wraps modulo 2^16 at
the return conversion, hence the `emod`). -/
def getPWM (regs : ℕ → ℕ) (num : ℕ) : ℕ :=
  let base := (PCA9685_LED0_ON_L + 4 * num) % 256
  let tOn := regVal regs (base + 1) * 256 + regVal regs base
  let tOff := regVal regs (base + 3) * 256 + regVal regs (base + 2)
  if tOff < tOn then ((4096 + (tOff : ℤ) - (tOn : ℤ)).emod 65536).toNat
  else tOff - tOn

/-- The four byte reads `getPWM` issues on the bus. -/
def getPWMReads (fd : ℤ) (num : ℕ) : List BusOp :=
  let base := (PCA9685_LED0_ON_L + 4 * num) % 256
  read8 fd (base + 1) ++ read8 fd base ++
  read8 fd (base + 3) ++ read8 fd (base + 2)

/-- Restates the claim's reading of `getTicks` (spec §4.3): the operation
returns the `(on, off)` pair, the off-tick replaced by `4096 + off − on`
when `off < on` and the raw pair reported as-is when `off ≥ on`.  Defined
only to compare that reading against `getPWM`. -/
def getTicksSpec (regs : ℕ → ℕ) (num : ℕ) : ℕ × ℕ :=
  let base := (PCA9685_LED0_ON_L + 4 * num) % 256
  let tOn := regVal regs (base + 1) * 256 + regVal regs base
  let tOff := regVal regs (base + 3) * 256 + regVal regs (base + 2)
  (tOn, if tOff < tOn then 4096 + tOff - tOn else tOff)

/-- A register file holding one channel's `(on, off)` pair little-endian,
all other registers zero. -/
def loadChannel (num tOn tOff : ℕ) : ℕ → ℕ :=
  fun a =>
    if a = PCA9685_LED0_ON_L + 4 * num then tOn % 256
    else if a = PCA9685_LED0_ON_L + 4 * num + 1 then tOn / 256
    else if a = PCA9685_LED0_ON_L + 4 * num + 2 then tOff % 256
    else if a = PCA9685_LED0_ON_L + 4 * num + 3 then tOff / 256
    else 0

/-- Concrete register file: channel 0 holds raw on = 100, off = 200. -/
def regsOn100Off200 : ℕ → ℕ := loadChannel 0 100 200

/-- `begin` (servo.cpp:27-45): on a failed bus open (negative descriptor)
it logs and returns, issuing no register traffic; otherwise reset followed
by external-clock setup (nonzero prescale argument) or the default 1000 Hz
frequency setup.  `regs` is the chip register state at entry and `osc` the
oscillator-calibration field at entry (the calibration is stored only
after these steps, servo.cpp:44). -/
def beginTrace (fd : ℤ) (regs : ℕ → ℕ) (osc : ℕ) (prescale : ℕ) : List BusOp :=
  if fd < 0 then []
  else
    resetTrace fd ++
    (if prescale ≠ 0 then setExtClk fd regs prescale
     else setPWMFreq fd regs osc 1000)

/-- The off-tick `writeMicroseconds` computes (servo.cpp:262-289), the
`double` arithmetic modelled over `ℚ`: read the prescale register, let
`pulselength = 1000000 · (prescale+1) / osc` microseconds per tick, and
truncate `micros / pulselength` (the `double → uint16_t` conversion at the
`setPWM` call). -/
def writeMicrosecondsOff (regs : ℕ → ℕ) (osc micros : ℕ) : ℕ :=
  let prescale : ℕ := readPrescale regs + 1
  let pulselength : ℚ := 1000000 * (prescale : ℚ) / (osc : ℚ)
  (⌊(micros : ℚ) / pulselength⌋).toNat

/-- `writeMicroseconds` (servo.cpp:255-290): the prescale read followed by
the channel write with on = 0. -/
def writeMicroseconds (fd : ℤ) (regs : ℕ → ℕ) (osc num micros : ℕ) :
    List BusOp :=
  read8 fd PCA9685_PRESCALE ++
  setPWM fd num 0 (writeMicrosecondsOff regs osc micros)

/-- Concrete register file: the prescale register holds 121. -/
def regsPrescale121 : ℕ → ℕ := fun a => if a = PCA9685_PRESCALE then 121 else 0

end Servo

/-- A `read8` result is always a byte. -/
lemma regVal_lt (regs : ℕ → ℕ) (a : ℕ) : Servo.regVal regs a < 256 := by
  simp only [Servo.regVal]
  omega

/-- The byte-level identities behind `setPWMFreq`'s mode writes: the final
`oldmode | RESTART | AI` value is still a byte, and it agrees with the old
mode on every bit other than RESTART and AI (mask `0x4F` keeps everything
but RESTART, AI and SLEEP; mask `0x40` is the EXTCLK bit). -/
lemma byte_facts_freq : ∀ b < 256,
    b % 256 = b ∧
    (b ||| 128 ||| 32) % 256 = (b ||| 128 ||| 32) ∧
    ((b ||| 128 ||| 32) &&& 79 = b &&& 79) ∧
    ((b ||| 128 ||| 32) &&& 64 = b &&& 64) ∧
    ((b &&& 127 ||| 16) % 256 = (b &&& 127 ||| 16)) := by
  decide

/-- The byte-level identities behind `setExtClk`'s mode writes: all derived
mode values are bytes, and the final value has SLEEP clear and RESTART and
AI set, whatever the initial mode byte. -/
lemma byte_facts_ext : ∀ b < 256,
    ((b &&& 127 ||| 16) ||| 64) % 256 = ((b &&& 127 ||| 16) ||| 64) ∧
    ((((b &&& 127 ||| 16) ||| 64) &&& 239) ||| 128 ||| 32) % 256
      = ((((b &&& 127 ||| 16) ||| 64) &&& 239) ||| 128 ||| 32) ∧
    ((((b &&& 127 ||| 16) ||| 64) &&& 239) ||| 128 ||| 32) &&& 16 = 0 ∧
    ((((b &&& 127 ||| 16) ||| 64) &&& 239) ||| 128 ||| 32) &&& 128 = 128 ∧
    ((((b &&& 127 ||| 16) ||| 64) &&& 239) ||| 128 ||| 32) &&& 32 = 32 := by
  decide

/-- The source's sequential clamp (`if (x < a) x = a; if (x > b) x = b;`)
agrees with the order-theoretic clamp when `a ≤ b`. -/
lemma ite_clamp_eq (a b p : ℚ) (hab : a ≤ b) :
    (if p < a then a else if p > b then b else p) = min b (max a p) := by
  split_ifs with h1 h2
  · rw [max_eq_left h1.le, min_eq_right hab]
  · push_neg at h1
    rw [max_eq_right h1, min_eq_left h2.le]
  · push_neg at h1 h2
    rw [max_eq_right h1, min_eq_right h2]

/-- Floor commutes with `max` against an integer bound. -/
lemma floor_intCast_max (n : ℤ) (q : ℚ) : ⌊max ((n : ℚ)) q⌋ = max n ⌊q⌋ := by
  rcases le_total ((n : ℚ)) q with h | h
  · rw [max_eq_right h, max_eq_right (Int.le_floor.mpr h)]
  · have h' : ⌊q⌋ ≤ n := by
      have := Int.floor_mono h
      simpa using this
    rw [max_eq_left h, Int.floor_intCast, max_eq_left h']

/-- Floor commutes with `min` against an integer bound. -/
lemma floor_intCast_min (n : ℤ) (q : ℚ) : ⌊min ((n : ℚ)) q⌋ = min n ⌊q⌋ := by
  rcases le_total ((n : ℚ)) q with h | h
  · have h' : n ≤ ⌊q⌋ := Int.le_floor.mpr h
    rw [min_eq_left h, Int.floor_intCast, min_eq_left h']
  · have h' : ⌊q⌋ ≤ n := by
      have := Int.floor_mono h
      simpa using this
    rw [min_eq_right h, min_eq_right h']

/-- Closed form of `computePrescale`: the spec's
`clamp(floor(osc/(hz·4096) + 1/2) − 1)` with the frequency clamped to
`[1, 3500]` first. -/
lemma computePrescale_eq (osc : ℕ) (freq : ℚ) :
    Servo.computePrescale osc freq =
      (min 255 (max 3
        (⌊(osc : ℚ) / (min 3500 (max 1 freq) * 4096) + 1 / 2⌋ - 1))).toNat := by
  have hfc : (if freq < 1 then (1 : ℚ) else if freq > 3500 then 3500 else freq)
      = min 3500 (max 1 freq) := ite_clamp_eq 1 3500 freq (by norm_num)
  simp only [Servo.computePrescale, Servo.PCA9685_PRESCALE_MIN,
    Servo.PCA9685_PRESCALE_MAX, Nat.cast_ofNat, hfc]
  rw [ite_clamp_eq 3 255 _ (by norm_num)]
  congr 1
  rw [show ((255 : ℚ)) = ((255 : ℤ) : ℚ) by norm_num,
    show ((3 : ℚ)) = ((3 : ℤ) : ℚ) by norm_num,
    floor_intCast_min, floor_intCast_max,
    show ((osc : ℚ) / (min 3500 (max 1 freq) * 4096) + 1 / 2 - 1)
      = ((osc : ℚ) / (min 3500 (max 1 freq) * 4096) + 1 / 2) - ((1 : ℤ) : ℚ)
      by norm_num,
    Int.floor_sub_int]

/-- The computed prescale always lands in `[3, 255]`, whatever the
frequency or oscillator calibration. -/
lemma computePrescale_range (osc : ℕ) (freq : ℚ) :
    3 ≤ Servo.computePrescale osc freq ∧ Servo.computePrescale osc freq ≤ 255 := by
  rw [computePrescale_eq]
  have h1 : (3 : ℤ) ≤ min 255 (max 3
      (⌊(osc : ℚ) / (min 3500 (max 1 freq) * 4096) + 1 / 2⌋ - 1)) :=
    le_min (by norm_num) (le_max_left _ _)
  have h2 : min 255 (max 3
      (⌊(osc : ℚ) / (min 3500 (max 1 freq) * 4096) + 1 / 2⌋ - 1)) ≤ 255 :=
    min_le_left _ _
  omega

/-- C1: `setPWMFreq` computes the prescale as
`round(osc / (hz·4096)) − 1` in round-half-up convention, clamped into
`[PRESCALE_MIN, PRESCALE_MAX]`, for every oscillator calibration and every
(clamped) target frequency; at 25 MHz it yields 121 for 50 Hz and 5 for
1000 Hz (neither clamped). -/
theorem setPWMFreq_prescale_formula :
    (∀ (osc : ℕ) (freq : ℚ), Servo.computePrescale osc freq =
      (min (Servo.PCA9685_PRESCALE_MAX : ℤ) (max (Servo.PCA9685_PRESCALE_MIN : ℤ)
        (⌊(osc : ℚ) / (min 3500 (max 1 freq) * 4096) + 1 / 2⌋ - 1))).toNat) ∧
    Servo.computePrescale 25000000 50 = 121 ∧
    Servo.computePrescale 25000000 1000 = 5 := by
  refine ⟨?_, ?_, ?_⟩
  · intro osc freq
    rw [computePrescale_eq]
    norm_num [Servo.PCA9685_PRESCALE_MIN, Servo.PCA9685_PRESCALE_MAX]
  · rw [computePrescale_eq]
    have hm : min (3500 : ℚ) (max 1 50) = 50 := by norm_num
    rw [hm]
    have hf : ⌊((25000000 : ℕ) : ℚ) / (50 * 4096) + 1 / 2⌋ = 122 := by
      rw [Int.floor_eq_iff]
      norm_num
    rw [hf]
    decide
  · rw [computePrescale_eq]
    have hm : min (3500 : ℚ) (max 1 1000) = 1000 := by norm_num
    rw [hm]
    have hf : ⌊((25000000 : ℕ) : ℚ) / (1000 * 4096) + 1 / 2⌋ = 6 := by
      rw [Int.floor_eq_iff]
      norm_num
    rw [hf]
    decide

/-- C7: with any fixed oscillator calibration, the computed prescale is
monotonically non-increasing in the target frequency over `[1, 3500]`, and
always lies in `[PRESCALE_MIN, PRESCALE_MAX]`. -/
theorem setPWMFreq_prescale_monotone (osc : ℕ) (f1 f2 : ℚ)
    (hf1 : 1 ≤ f1) (h12 : f1 ≤ f2) (hf2 : f2 ≤ 3500) :
    Servo.computePrescale osc f2 ≤ Servo.computePrescale osc f1 ∧
    (Servo.PCA9685_PRESCALE_MIN ≤ Servo.computePrescale osc f1 ∧
      Servo.computePrescale osc f1 ≤ Servo.PCA9685_PRESCALE_MAX) ∧
    (Servo.PCA9685_PRESCALE_MIN ≤ Servo.computePrescale osc f2 ∧
      Servo.computePrescale osc f2 ≤ Servo.PCA9685_PRESCALE_MAX) := by
  refine ⟨?_, computePrescale_range osc f1, computePrescale_range osc f2⟩
  rw [computePrescale_eq, computePrescale_eq]
  have hc1 : (0 : ℚ) < min 3500 (max 1 f1) * 4096 := by
    have : (0 : ℚ) < min 3500 (max 1 f1) :=
      lt_min (by norm_num) (lt_of_lt_of_le one_pos (le_max_left _ _))
    positivity
  have hcc : min 3500 (max 1 f1) * 4096 ≤ min 3500 (max 1 f2) * 4096 := by
    have : min 3500 (max 1 f1) ≤ min 3500 (max 1 f2) :=
      min_le_min le_rfl (max_le_max le_rfl h12)
    linarith
  have hx : (osc : ℚ) / (min 3500 (max 1 f2) * 4096)
      ≤ (osc : ℚ) / (min 3500 (max 1 f1) * 4096) := by
    gcongr
  have hz : ⌊(osc : ℚ) / (min 3500 (max 1 f2) * 4096) + 1 / 2⌋ - 1
      ≤ ⌊(osc : ℚ) / (min 3500 (max 1 f1) * 4096) + 1 / 2⌋ - 1 :=
    sub_le_sub_right (Int.floor_mono (add_le_add_right hx _)) _
  exact Int.toNat_le_toNat (min_le_min le_rfl (max_le_max le_rfl hz))

/-- Witness for C7 at osc = 25 MHz, f1 = 50, f2 = 1000. -/
theorem setPWMFreq_prescale_monotone_witness :
    Servo.computePrescale 25000000 1000 ≤ Servo.computePrescale 25000000 50 ∧
    (Servo.PCA9685_PRESCALE_MIN ≤ Servo.computePrescale 25000000 50 ∧
      Servo.computePrescale 25000000 50 ≤ Servo.PCA9685_PRESCALE_MAX) ∧
    (Servo.PCA9685_PRESCALE_MIN ≤ Servo.computePrescale 25000000 1000 ∧
      Servo.computePrescale 25000000 1000 ≤ Servo.PCA9685_PRESCALE_MAX) :=
  setPWMFreq_prescale_monotone 25000000 50 1000 (by norm_num) (by norm_num)
    (by norm_num)

/-- C2: for every value, `setPin` first clamps it to 4095 and then forwards
exactly the spec table's `(on, off)` pair to `setPWM`: with invert=false,
4095 ↦ (4096,0), 0 ↦ (0,4096), 1..4094 ↦ (0,v); with invert=true,
0 ↦ (4096,0), 4095 ↦ (0,4096), 1..4094 ↦ (0, 4095−v); values above 4095
behave as 4095. -/
theorem setPin_table (v : ℕ) :
    Servo.setPinPair 4095 false = (4096, 0) ∧
    Servo.setPinPair 0 false = (0, 4096) ∧
    (1 ≤ v → v ≤ 4094 → Servo.setPinPair v false = (0, v)) ∧
    Servo.setPinPair 0 true = (4096, 0) ∧
    Servo.setPinPair 4095 true = (0, 4096) ∧
    (1 ≤ v → v ≤ 4094 → Servo.setPinPair v true = (0, 4095 - v)) ∧
    (4095 ≤ v → Servo.setPinPair v false = Servo.setPinPair 4095 false ∧
      Servo.setPinPair v true = Servo.setPinPair 4095 true) ∧
    (∀ fd num invert, Servo.setPin fd num v invert =
      Servo.setPWM fd num (Servo.setPinPair v invert).1
        (Servo.setPinPair v invert).2) := by
  refine ⟨by decide, by decide, ?_, by decide, by decide, ?_, ?_, ?_⟩
  · intro h1 h2
    have hv : min v 4095 = v := by omega
    have h0 : v ≠ 0 := by omega
    have h4095 : v ≠ 4095 := by omega
    simp [Servo.setPinPair, hv, h0, h4095]
  · intro h1 h2
    have hv : min v 4095 = v := by omega
    have h0 : v ≠ 0 := by omega
    have h4095 : v ≠ 4095 := by omega
    simp [Servo.setPinPair, hv, h0, h4095]
  · intro h
    have hv : min v 4095 = 4095 := by omega
    constructor <;> · simp [Servo.setPinPair, hv]
  · intro fd num invert
    rfl

/-- Witness for C2 at the spec's example value 2048. -/
theorem setPin_table_witness :
    Servo.setPinPair 2048 false = (0, 2048) ∧ Servo.setPinPair 2048 true = (0, 2047) :=
  ⟨((setPin_table 2048).2.2.1 (by decide) (by decide)),
   ((setPin_table 2048).2.2.2.2.2.1 (by decide) (by decide))⟩

/-- C10: for every v ≤ 4095, `setPin` with invert=true and value v forwards
exactly the same `(on, off)` pair as `setPin` with invert=false and value
4095 − v, including the full-on/full-off marker cases. -/
theorem setPin_invert_reflection (v : ℕ) (h : v ≤ 4095) :
    Servo.setPinPair v true = Servo.setPinPair (4095 - v) false := by
  have hv : min v 4095 = v := by omega
  have hv' : min (4095 - v) 4095 = 4095 - v := by omega
  rcases Nat.eq_zero_or_pos v with h0 | hpos
  · subst h0; decide
  · rcases Nat.lt_or_ge v 4095 with hlt | hge
    · have h0 : v ≠ 0 := by omega
      have h4095 : v ≠ 4095 := by omega
      have g0 : 4095 - v ≠ 0 := by omega
      have g4095 : 4095 - v ≠ 4095 := by omega
      have gsub : 4095 - (4095 - v) = v := by omega
      simp [Servo.setPinPair, hv, hv', h0, h4095, g0, g4095, gsub]
    · have : v = 4095 := by omega
      subst this; decide

/-- Witness for C10 at v = 1000. -/
theorem setPin_invert_reflection_witness :
    Servo.setPinPair 1000 true = Servo.setPinPair 3095 false :=
  setPin_invert_reflection 1000 (by decide)

/-- C4: for every initial MODE1 value and prescale, `setExtClk` writes
exactly the four-step sequence (sleep with restart cleared, sleep+EXTCLK,
prescale, final wake), each value derived from the previously computed one
(the trace is a function of the single initial read), and the final MODE1
write has SLEEP clear and RESTART and AI set. -/
theorem setExtClk_sequencing (fd : ℤ) (regs : ℕ → ℕ) (prescale : ℕ) :
    Servo.writesOf (Servo.setExtClk fd regs prescale) =
      [(Servo.PCA9685_MODE1, Servo.sleepMode (Servo.regVal regs Servo.PCA9685_MODE1)),
       (Servo.PCA9685_MODE1,
         Servo.sleepMode (Servo.regVal regs Servo.PCA9685_MODE1) ||| Servo.MODE1_EXTCLK),
       (Servo.PCA9685_PRESCALE, prescale % 256),
       (Servo.PCA9685_MODE1,
         Servo.extClkFinalMode (Servo.regVal regs Servo.PCA9685_MODE1))] ∧
    Servo.extClkFinalMode (Servo.regVal regs Servo.PCA9685_MODE1)
      &&& Servo.MODE1_SLEEP = 0 ∧
    Servo.extClkFinalMode (Servo.regVal regs Servo.PCA9685_MODE1)
      &&& Servo.MODE1_RESTART = Servo.MODE1_RESTART ∧
    Servo.extClkFinalMode (Servo.regVal regs Servo.PCA9685_MODE1)
      &&& Servo.MODE1_AI = Servo.MODE1_AI := by
  simp only [Servo.setExtClk]
  have hb := regVal_lt regs Servo.PCA9685_MODE1
  revert hb
  generalize Servo.regVal regs Servo.PCA9685_MODE1 = b
  intro hb
  obtain ⟨hfa, hfb, _, _, hfc⟩ := byte_facts_freq b hb
  obtain ⟨he1, he2, he3, he4, he5⟩ := byte_facts_ext b hb
  refine ⟨?_, ?_, ?_, ?_⟩ <;>
    simp [Servo.writesOf, Servo.write8, Servo.read8,
      Servo.sleepMode, Servo.extClkFinalMode, Servo.MODE1_RESTART,
      Servo.MODE1_EXTCLK, Servo.MODE1_AI, Servo.MODE1_SLEEP,
      Servo.PCA9685_MODE1, Servo.PCA9685_PRESCALE,
      hfa, hfb, hfc, he1, he2, he3, he4, he5, hb]

/-- C8: `setPWMFreq` captures MODE1 before sleeping and restores exactly
that captured value; all its writes target MODE1 or PRESCALE only, and the
final MODE1 value agrees with the captured pre-call value on every bit
other than RESTART, AI and SLEEP (mask `0x4F`); in particular the EXTCLK
bit (`0x40`) is preserved. -/
theorem setPWMFreq_frame (fd : ℤ) (regs : ℕ → ℕ) (osc : ℕ) (freq : ℚ) :
    ((Servo.writesOf (Servo.setPWMFreq fd regs osc freq)).all
      fun p => p.1 = Servo.PCA9685_MODE1 || p.1 = Servo.PCA9685_PRESCALE) = true ∧
    (Servo.writesOf (Servo.setPWMFreq fd regs osc freq)).get? 2 =
      some (Servo.PCA9685_MODE1, Servo.regVal regs Servo.PCA9685_MODE1) ∧
    (Servo.writesOf (Servo.setPWMFreq fd regs osc freq)).getLast? =
      some (Servo.PCA9685_MODE1,
        Servo.regVal regs Servo.PCA9685_MODE1 ||| Servo.MODE1_RESTART
          ||| Servo.MODE1_AI) ∧
    (Servo.regVal regs Servo.PCA9685_MODE1 ||| Servo.MODE1_RESTART
        ||| Servo.MODE1_AI) &&& 79
      = Servo.regVal regs Servo.PCA9685_MODE1 &&& 79 ∧
    (Servo.regVal regs Servo.PCA9685_MODE1 ||| Servo.MODE1_RESTART
        ||| Servo.MODE1_AI) &&& Servo.MODE1_EXTCLK
      = Servo.regVal regs Servo.PCA9685_MODE1 &&& Servo.MODE1_EXTCLK := by
  simp only [Servo.setPWMFreq]
  have hb := regVal_lt regs Servo.PCA9685_MODE1
  revert hb
  generalize Servo.regVal regs Servo.PCA9685_MODE1 = b
  intro hb
  obtain ⟨hfa, hfb, hfc, hfd, hfe⟩ := byte_facts_freq b hb
  refine ⟨?_, ?_, ?_, ?_, ?_⟩ <;>
    simp [Servo.writesOf, Servo.write8, Servo.read8,
      Servo.sleepMode, Servo.MODE1_RESTART, Servo.MODE1_EXTCLK,
      Servo.MODE1_AI, Servo.MODE1_SLEEP, Servo.PCA9685_MODE1,
      Servo.PCA9685_PRESCALE, hfa, hfb, hfc, hfd, hfe, hb]

/-- C3 counterexample: with raw registers on = 100, off = 200 (so
off ≥ on), `getPWM` returns the duty difference 100, not the raw pair /
raw off-value 200 that the claim's "reported as-is" reading demands. -/
theorem getPWM_pair_counterexample :
    Servo.getPWM Servo.regsOn100Off200 0 = 100 ∧
    Servo.getTicksSpec Servo.regsOn100Off200 0 = (100, 200) ∧
    Servo.getPWM Servo.regsOn100Off200 0 ≠
      (Servo.getTicksSpec Servo.regsOn100Off200 0).2 := by
  decide

/-- C3 amended: `getPWM` reads the four channel registers as little-endian
16-bit on/off values and returns the single wraparound-normalized duty
value: `4096 + off − on` (mod 2^16) when `off < on`, and the difference
`off − on` (not the raw pair) when `off ≥ on`; for raw on = 3000,
off = 1000 it reports 2096. -/
theorem getPWM_normalized (num tOn tOff : ℕ) (hnum : num ≤ 15)
    (hOn : tOn < 65536) (hOff : tOff < 65536) :
    (Servo.getPWM (Servo.loadChannel num tOn tOff) num =
      if tOff < tOn then ((4096 + (tOff : ℤ) - (tOn : ℤ)).emod 65536).toNat
      else tOff - tOn) ∧
    Servo.getPWM (Servo.loadChannel 0 3000 1000) 0 = 2096 := by
  refine ⟨?_, by decide⟩
  have hbase : (Servo.PCA9685_LED0_ON_L + 4 * num) % 256
      = Servo.PCA9685_LED0_ON_L + 4 * num := by
    simp only [Servo.PCA9685_LED0_ON_L]
    omega
  have h1 : (Servo.PCA9685_LED0_ON_L + 4 * num + 1) % 256
      = Servo.PCA9685_LED0_ON_L + 4 * num + 1 := by
    simp only [Servo.PCA9685_LED0_ON_L]
    omega
  have h2 : (Servo.PCA9685_LED0_ON_L + 4 * num + 2) % 256
      = Servo.PCA9685_LED0_ON_L + 4 * num + 2 := by
    simp only [Servo.PCA9685_LED0_ON_L]
    omega
  have h3 : (Servo.PCA9685_LED0_ON_L + 4 * num + 3) % 256
      = Servo.PCA9685_LED0_ON_L + 4 * num + 3 := by
    simp only [Servo.PCA9685_LED0_ON_L]
    omega
  have e0 : Servo.loadChannel num tOn tOff (Servo.PCA9685_LED0_ON_L + 4 * num)
      = tOn % 256 := by
    simp [Servo.loadChannel]
  have e1 : Servo.loadChannel num tOn tOff (Servo.PCA9685_LED0_ON_L + 4 * num + 1)
      = tOn / 256 := by
    simp [Servo.loadChannel]
  have e2 : Servo.loadChannel num tOn tOff (Servo.PCA9685_LED0_ON_L + 4 * num + 2)
      = tOff % 256 := by
    simp [Servo.loadChannel]
  have e3 : Servo.loadChannel num tOn tOff (Servo.PCA9685_LED0_ON_L + 4 * num + 3)
      = tOff / 256 := by
    simp [Servo.loadChannel]
  simp only [Servo.getPWM, Servo.regVal, hbase, h1, h2, h3, e0, e1, e2, e3]
  have dOn : tOn / 256 % 256 = tOn / 256 := by omega
  have dOn' : tOn % 256 % 256 = tOn % 256 := by omega
  have dOff : tOff / 256 % 256 = tOff / 256 := by omega
  have dOff' : tOff % 256 % 256 = tOff % 256 := by omega
  rw [dOn, dOn', dOff, dOff',
    show tOn / 256 * 256 + tOn % 256 = tOn by omega,
    show tOff / 256 * 256 + tOff % 256 = tOff by omega]

/-- Witness for C3's amended theorem at the spec's wraparound example. -/
theorem getPWM_normalized_witness :
    (Servo.getPWM (Servo.loadChannel 0 3000 1000) 0 =
      if (1000 : ℕ) < 3000 then ((4096 + (1000 : ℤ) - 3000).emod 65536).toNat
      else 1000 - 3000) ∧
    Servo.getPWM (Servo.loadChannel 0 3000 1000) 0 = 2096 :=
  getPWM_normalized 0 3000 1000 (by decide) (by decide) (by decide)

/-- C5 counterexample: with an invalid bus handle (fd = −1), a register
write still issues a bus transaction instead of failing fast — the
"no register operation proceeds on an invalid handle" half of the claim is
false of the code. -/
theorem begin_failfast_counterexample :
    Servo.write8 (-1) Servo.PCA9685_MODE1 Servo.MODE1_RESTART ≠ [] := by
  decide

/-- C5 amended: when the bus open fails (negative descriptor), `begin`
logs and returns without issuing any register traffic; but there is no
`BusOpenError` value, and the low-level register operations perform no
handle-validity check — they issue the transaction on whatever descriptor
is stored, invalid or not. -/
theorem begin_busopen_amended (fd : ℤ) (regs : ℕ → ℕ)
    (osc prescale addr d : ℕ) (hfd : fd < 0) :
    Servo.beginTrace fd regs osc prescale = [] ∧
    Servo.write8 fd addr d = [Servo.BusOp.writeReg fd (addr % 256) (d % 256)] ∧
    Servo.read8 fd addr = [Servo.BusOp.readReg fd (addr % 256)] := by
  refine ⟨?_, rfl, rfl⟩
  simp [Servo.beginTrace, hfd]

/-- Witness for C5's amended theorem at fd = −1. -/
theorem begin_busopen_amended_witness :
    Servo.beginTrace (-1) (fun _ => 0) 25000000 0 = [] ∧
    Servo.write8 (-1) 0 0 = [Servo.BusOp.writeReg (-1) (0 % 256) (0 % 256)] ∧
    Servo.read8 (-1) 0 = [Servo.BusOp.readReg (-1) (0 % 256)] :=
  begin_busopen_amended (-1) (fun _ => 0) 25000000 0 0 0 (by norm_num)

/-- C6 counterexample: channel 16, outside 0..15, is not rejected — it
still produces register writes (no `InvalidArgument`, no empty trace). -/
theorem channel_validation_counterexample :
    Servo.setPWM 3 16 0 410 ≠ [] ∧
    Servo.writesOf (Servo.setPWM 3 16 0 410) ≠ [] := by
  decide

/-- C6 amended: none of the per-channel operations validates the channel;
for every channel value (in range or not) they access the four registers
based at `(LED0_ON_L + 4·num) mod 256` — four writes for `setPWM` and
`setPin`, four reads for `getPWM`, one prescale read plus four writes for
`writeMicroseconds`. -/
theorem channel_no_validation (fd : ℤ) (num tOn tOff val micros : ℕ)
    (invert : Bool) (regs : ℕ → ℕ) (osc : ℕ) :
    (Servo.writesOf (Servo.setPWM fd num tOn tOff)).length = 4 ∧
    ((Servo.writesOf (Servo.setPWM fd num tOn tOff)).head?.map Prod.fst) =
      some ((Servo.PCA9685_LED0_ON_L + 4 * num) % 256) ∧
    (Servo.writesOf (Servo.setPin fd num val invert)).length = 4 ∧
    (Servo.getPWMReads fd num).length = 4 ∧
    (Servo.writesOf (Servo.writeMicroseconds fd regs osc num micros)).length
      = 4 := by
  refine ⟨?_, ?_, ?_, ?_, ?_⟩ <;>
    simp [Servo.setPWM, Servo.setPin, Servo.getPWMReads,
      Servo.writeMicroseconds, Servo.writesOf, Servo.write8, Servo.read8]

/-- C9: `writeMicroseconds` reads the chip's current prescale, converts the
microsecond count at `tickDurationUs = 10^6·(prescale+1)/osc`, truncates,
and writes the ticks with on = 0; with prescale 121, osc = 25 MHz and
1500 µs the written off-tick is 307. -/
theorem writeMicroseconds_formula :
    (∀ (fd : ℤ) (regs : ℕ → ℕ) (osc num micros : ℕ),
      Servo.writeMicroseconds fd regs osc num micros =
        Servo.read8 fd Servo.PCA9685_PRESCALE ++
        Servo.setPWM fd num 0
          ((⌊(micros : ℚ) * (osc : ℚ) /
            (1000000 * ((Servo.readPrescale regs : ℚ) + 1))⌋).toNat)) ∧
    Servo.writeMicrosecondsOff Servo.regsPrescale121 25000000 1500 = 307 := by
  constructor
  · intro fd regs osc num micros
    have hoff : Servo.writeMicrosecondsOff regs osc micros =
        (⌊(micros : ℚ) * (osc : ℚ) /
          (1000000 * ((Servo.readPrescale regs : ℚ) + 1))⌋).toNat := by
      simp only [Servo.writeMicrosecondsOff]
      rw [div_div_eq_mul_div]
      push_cast
      ring_nf
    unfold Servo.writeMicroseconds
    rw [hoff]
  · have hp : Servo.readPrescale Servo.regsPrescale121 = 121 := by decide
    simp only [Servo.writeMicrosecondsOff, hp]
    have hq : (1000000 : ℚ) * (((121 : ℕ) + 1 : ℕ) : ℚ) / ((25000000 : ℕ) : ℚ)
        = 122 / 25 := by
      norm_num
    rw [hq]
    have hr : ((1500 : ℕ) : ℚ) / (122 / 25) = 37500 / 122 := by norm_num
    rw [hr]
    have hf : ⌊(37500 : ℚ) / 122⌋ = 307 := by
      rw [Int.floor_eq_iff]
      norm_num
    rw [hf]
    rfl
